import Mathlib

/-!
Verification of the vplink relay bot (`telegram_vplink_bot.py`).

Strings are modelled as Lean `String`s (worked on through `List Char`);
Python's substring test, `str.replace`, `str.strip` and the concrete regular
expressions used by the source are implemented directly.  Network and parse
effects (`requests.get`, `response.json()`, BeautifulSoup) are modelled by
oracles: a fetch oracle maps a URL to either an exception or a response
consisting of the landed URL, the raw body text, and the parsed document.
-/

/-- ASCII alphanumeric test, the character class `[A-Za-z0-9]` of the
source's regular expressions. -/
def isAlnumAscii (c : Char) : Bool :=
  (('a' ≤ c ∧ c ≤ 'z') ∨ ('A' ≤ c ∧ c ≤ 'Z') ∨ ('0' ≤ c ∧ c ≤ '9') : Prop)

/-- Python's `\s` character class (`str.strip` and regex whitespace). -/
def pyIsSpace (c : Char) : Bool :=
  c = ' ' ∨ c = '\t' ∨ c = '\n' ∨ c = '\r' ∨ c = '\x0b' ∨ c = '\x0c'

/-- A single or double quote, the character class `["\']`. -/
def isQuote (c : Char) : Bool :=
  c = '\'' ∨ c = '"'

/-- Drop the literal pattern `p` from the front of `s`; `none` when `p` is
not a prefix of `s`. -/
def stripPfx : List Char → List Char → Option (List Char)
  | [], s => some s
  | _ :: _, [] => none
  | p :: ps, c :: t => if p = c then stripPfx ps t else none

/-- Substring containment on character lists: Python's `needle in hay`. -/
def containsSub : List Char → List Char → Bool
  | [], needle => needle.isEmpty
  | c :: t, needle => needle.isPrefixOf (c :: t) || containsSub t needle

/-- Python's `needle in hay` on strings. -/
def strContains (hay needle : String) : Bool :=
  containsSub hay.toList needle.toList

/-- Python's `str.strip()` (strip whitespace at both ends). -/
def pyStrip (s : String) : String :=
  String.mk (((s.toList.dropWhile pyIsSpace).reverse.dropWhile pyIsSpace).reverse)

/-- Python's `str.strip('\'"')` (strip quote characters at both ends). -/
def stripQuotes (s : String) : String :=
  String.mk (((s.toList.dropWhile isQuote).reverse.dropWhile isQuote).reverse)

/-- One step of Python's `str.replace`: scan left to right, replacing each
non-overlapping occurrence of `a` by `b`.  The `Nat` argument is fuel; it is
always called with the length of the scanned list, which suffices because
every step consumes at least one character. -/
def pyReplaceAux (a b : List Char) : Nat → List Char → List Char
  | 0, s => s
  | _ + 1, [] => []
  | fuel + 1, c :: t =>
    if a ≠ [] ∧ a.isPrefixOf (c :: t) then
      b ++ pyReplaceAux a b fuel ((c :: t).drop a.length)
    else
      c :: pyReplaceAux a b fuel t

/-- Python's `s.replace(a, b)` (all occurrences, evolving text, left to
right, non-overlapping; the empty pattern inserts `b` at every position). -/
def pyReplace (s a b : String) : String :=
  if a.toList = [] then
    String.mk (b.toList ++ s.toList.foldr (fun c acc => c :: (b.toList ++ acc)) [])
  else
    String.mk (pyReplaceAux a.toList b.toList s.toList.length s.toList)

/-- Python's `s.startswith(p)`. -/
def pyStartsWith (s p : String) : Bool :=
  p.toList.isPrefixOf s.toList

/-- Python's `s.split('/')[-1]`: the component after the last slash. -/
def lastSlashComponent (s : String) : String :=
  String.mk ((s.toList.reverse.takeWhile (fun c => c ≠ '/')).reverse)

/-- Split a URL's character list at the first `"://"`, returning the scheme
characters and the remainder.  Models the part of `urllib.parse.urlparse`
exercised by the source (which only ever parses absolute `http(s)` URLs to
read back `parsed.scheme` and `parsed.netloc`). -/
def schemeSplit : List Char → Option (List Char × List Char)
  | [] => none
  | c :: t =>
    if (':' :: '/' :: '/' :: []).isPrefixOf (c :: t) then
      some ([], (c :: t).drop 3)
    else
      match schemeSplit t with
      | some (a, b) => some (c :: a, b)
      | none => none

/-- `urllib.parse.urlparse(url).scheme` for the URLs the source feeds it. -/
def urlparse_scheme (url : String) : String :=
  match schemeSplit url.toList with
  | some (s, _) => String.mk s
  | none => ""

/-- `urllib.parse.urlparse(url).netloc` for the URLs the source feeds it. -/
def urlparse_netloc (url : String) : String :=
  match schemeSplit url.toList with
  | some (_, r) => String.mk (r.takeWhile (fun c => c ≠ '/' ∧ c ≠ '?' ∧ c ≠ '#'))
  | none => ""

/-! ## URL extraction (`extract_vplink_urls`) -/

/-- Matcher for the tail `://(?:www\.)?vplink\.in/[A-Za-z0-9]+` of the
extraction regex, returning the remainder of the input after the match
(the optional `www.` group is tried greedily and backtracked, as in `re`). -/
def vplinkTail (s : List Char) : Option (List Char) :=
  match stripPfx ("://".toList) s with
  | none => none
  | some s1 =>
    let afterHost :=
      match stripPfx ("www.".toList) s1 with
      | some s2 =>
        (match stripPfx ("vplink.in/".toList) s2 with
         | some s3 => some s3
         | none => stripPfx ("vplink.in/".toList) s1)
      | none => stripPfx ("vplink.in/".toList) s1
    match afterHost with
    | none => none
    | some s3 =>
      let run := s3.takeWhile isAlnumAscii
      if run.isEmpty then none else some (s3.drop run.length)

/-- Matcher for `https?://(?:www\.)?vplink\.in/[A-Za-z0-9]+` at the head of
`s`, returning the remainder after the match (`s?` greedy, backtracked). -/
def vplinkMatch (s : List Char) : Option (List Char) :=
  match stripPfx ("http".toList) s with
  | none => none
  | some s1 =>
    match s1 with
    | 's' :: s2 =>
      (match vplinkTail s2 with
       | some r => some r
       | none => vplinkTail s1)
    | _ => vplinkTail s1

/-- `re.findall` scan for the vplink pattern: try to match at each position,
emitting matches in order and continuing after each match (non-overlapping).
The fuel is always the length of the scanned list, which suffices because a
match consumes at least one character. -/
def findVplinkAux : Nat → List Char → List String
  | 0, _ => []
  | _ + 1, [] => []
  | fuel + 1, c :: t =>
    match vplinkMatch (c :: t) with
    | some rest =>
      String.mk ((c :: t).take ((c :: t).length - rest.length)) :: findVplinkAux fuel rest
    | none => findVplinkAux fuel t

/-- `extract_vplink_urls(text)`: all vplink.in URLs in the text, in order,
duplicates preserved; empty input yields the empty list. -/
def extract_vplink_urls (text : String) : List String :=
  if text = "" then [] else findVplinkAux text.toList.length text.toList

/-! ## Shortener classification -/

/-- The `shortener_domains` list of the source. -/
def shortener_domains : List String :=
  ["vplink.in", "ohcar2022.co.in", "ohcar", "bit.ly", "tinyurl.com", "shorturl.at", "clk.sh"]

/-- The `destination_domains` list of the source (known final-content hosts). -/
def destination_domains : List String :=
  ["gofile.io", "mediafire.com", "drive.google.com", "mega.nz", "dropbox.com"]

/-- The classifier `any(domain in url for domain in shortener_domains)`:
substring containment of each configured domain against the whole URL. -/
def is_shortener (url : String) : Bool :=
  shortener_domains.any (fun domain => strContains url domain)

/-- Classifier following the specification's words instead of the code:
substring containment of each configured domain against the URL's host
only.  Used to compare the code's classifier with the specified one. -/
def spec_host_is_shortener (url : String) : Bool :=
  shortener_domains.any (fun domain => strContains (urlparse_netloc url) domain)

/-! ## Parsed-document model and the seven extraction heuristics -/

/-- An `<a>` element as the heuristics query it through BeautifulSoup:
its `id` attribute, its class tokens, its string content, and its `href`. -/
structure Anchor where
  id : Option String
  classes : List String
  text : Option String
  href : Option String
deriving Repr, DecidableEq

/-- What BeautifulSoup parsing of the body exposes to the heuristics: the
anchors in document order, the `content` attribute of the first
`<meta http-equiv="refresh">` (when such a tag exists; a missing `content`
attribute is the empty string, as `meta_refresh.get('content', '')`), the
`src` attributes of the iframes, and the `.string` of each `<script>`. -/
structure Doc where
  anchors : List Anchor
  metaRefresh : Option String
  iframeSrcs : List (Option String)
  scripts : List (Option String)
deriving Repr, DecidableEq

/-- A `requests.get` response: the landed URL after redirects
(`response.url`), the body (`response.text`), and its parse. -/
structure Response where
  url : String
  text : String
  doc : Doc
deriving Repr, DecidableEq

/-- A fetch either yields a response or raises (network or parse error in
the step's `try` block). -/
inductive FetchResult where
  | ok (r : Response)
  | exn
deriving Repr, DecidableEq

/-- Method 1: `soup.find('a', {'id': 'skip_button'}) or soup.find('a',
{'class': 'skip'}) or soup.find('a', string=re.compile('skip|continue|get
link', re.IGNORECASE))`, then `if skip_link and skip_link.get('href')`.
Returns the chosen anchor's `href` when that href is present and non-empty
(Python truthiness); if an anchor is chosen but its href is missing or
empty, the whole method yields nothing (no further anchor is tried, since
the `or` chain already picked the anchor object). -/
def anchorTextMatchesSkip (a : Anchor) : Bool :=
  match a.text with
  | some s =>
    let ls := String.mk (s.toList.map Char.toLower)
    strContains ls "skip" || strContains ls "continue" || strContains ls "get link"
  | none => false

def find_skip_link (d : Doc) : Option String :=
  let chosen : Option Anchor :=
    match d.anchors.find? (fun a => a.id == some "skip_button") with
    | some a => some a
    | none =>
      match d.anchors.find? (fun a => a.classes.contains "skip") with
      | some a => some a
      | none => d.anchors.find? anchorTextMatchesSkip
  match chosen with
  | some a =>
    match a.href with
    | some h => if h = "" then none else some h
    | none => none
  | none => none

/-- `re.search(r'url=(.+)', content, re.IGNORECASE)`: first position with a
case-insensitive `url=` followed by at least one non-newline character;
the group is everything to the end of that line. -/
def ciUrlEqAt (s : List Char) : Bool :=
  match s with
  | u :: r :: l :: e :: _ => u.toLower = 'u' ∧ r.toLower = 'r' ∧ l.toLower = 'l' ∧ e = '='
  | _ => false

def searchUrlEq : List Char → Option (List Char)
  | [] => none
  | c :: t =>
    if ciUrlEqAt (c :: t) then
      let g := ((c :: t).drop 4).takeWhile (fun ch => ch ≠ '\n')
      if g.isEmpty then searchUrlEq t else some g
    else searchUrlEq t

/-- Method 2: the meta-refresh target, `match.group(1).strip('\'"')`. -/
def meta_refresh_target (d : Doc) : Option String :=
  match d.metaRefresh with
  | none => none
  | some content =>
    match searchUrlEq content.toList with
    | some g => some (stripQuotes (String.mk g))
    | none => none

/-- Method 3: the first `<a href=...>` whose href contains one of the
destination domains; returned directly. -/
def find_destination_anchor (d : Doc) : Option String :=
  match d.anchors.find? (fun a =>
      match a.href with
      | some h => destination_domains.any (fun dom => strContains h dom)
      | none => false) with
  | some a => a.href
  | none => none

/-- Method 4: the first iframe whose `src` is present, non-empty and
contains a destination domain; returned directly. -/
def find_destination_iframe (d : Doc) : Option String :=
  match d.iframeSrcs.find? (fun s? =>
      match s? with
      | some s => (s != "") && destination_domains.any (fun dom => strContains s dom)
      | none => false) with
  | some (some s) => some s
  | _ => none

/-- `re.search(r'(["\']https://gofile\.io/d/[A-Za-z0-9]+["\'])', ...)` with
the subsequent `.strip('\'"')`: a quoted gofile URL inside a script. -/
def searchGofileQuoted : List Char → Option String
  | [] => none
  | c :: t =>
    if isQuote c then
      match stripPfx ("https://gofile.io/d/".toList) t with
      | some r =>
        let run := r.takeWhile isAlnumAscii
        if (!run.isEmpty) && (match r.drop run.length with
            | q :: _ => isQuote q
            | [] => false) then
          some ("https://gofile.io/d/" ++ String.mk run)
        else searchGofileQuoted t
      | none => searchGofileQuoted t
    else searchGofileQuoted t

/-- The capture `["\']([^"\']+)["\']`: a quote, a non-empty run of
non-quote characters, a closing quote. -/
def quoteCapture : List Char → Option String
  | [] => none
  | q :: s4 =>
    if isQuote q then
      let run := s4.takeWhile (fun c => !(isQuote c))
      if run.isEmpty then none
      else
        match s4.drop run.length with
        | q2 :: _ => if isQuote q2 then some (String.mk run) else none
        | [] => none
    else none

/-- `\s*=\s*` followed by the quote capture, for the
`window.location`/`location.href` assignment pattern. -/
def afterEq (s : List Char) : Option String :=
  match s.dropWhile pyIsSpace with
  | '=' :: s2 => quoteCapture (s2.dropWhile pyIsSpace)
  | _ => none

/-- `re.search(r'(?:window\.location|location\.href)\s*=\s*["\']([^"\']+)["\']', s)`. -/
def searchLoc : List Char → Option String
  | [] => none
  | c :: t =>
    match (match stripPfx ("window.location".toList) (c :: t) with
           | some r => afterEq r
           | none => none) with
    | some g => some g
    | none =>
      match (match stripPfx ("location.href".toList) (c :: t) with
             | some r => afterEq r
             | none => none) with
      | some g => some g
      | none => searchLoc t

/-- `re.search` for the call patterns `window\.open\(["\']([^"\']+)["\']`,
`redirect\(...`, `fetch\(...`: a literal head followed by the quote capture. -/
def searchCallPat (pfx : List Char) : List Char → Option String
  | [] => none
  | c :: t =>
    match stripPfx pfx (c :: t) with
    | some r =>
      match quoteCapture r with
      | some g => some g
      | none => searchCallPat pfx t
    | none => searchCallPat pfx t

/-- The self-reference placeholders skipped by Method 5. -/
def placeholders : List String := ["#", "javascript:void(0)", ""]

/-- Method 5's pattern loop: the four patterns in order; a match that is a
placeholder falls through to the next pattern (`continue`). -/
def pickPattern : List (Option String) → Option String
  | [] => none
  | none :: rest => pickPattern rest
  | some d :: rest => if placeholders.contains d then pickPattern rest else some d

/-- Outcome of Method 5 on one script: a literal gofile URL is returned
directly; a redirect-call argument is recursed into. -/
inductive ScriptHit where
  | direct (dest : String)
  | hop (dest : String)
deriving Repr, DecidableEq

/-- Method 5 on one script body. -/
def script_hit (s : String) : Option ScriptHit :=
  match searchGofileQuoted s.toList with
  | some dest => some (ScriptHit.direct dest)
  | none =>
    match pickPattern
        [searchLoc s.toList,
         searchCallPat ("window.open(".toList) s.toList,
         searchCallPat ("redirect(".toList) s.toList,
         searchCallPat ("fetch(".toList) s.toList] with
    | some dest => some (ScriptHit.hop dest)
    | none => none

/-- Method 5 over all scripts, in order; scripts whose `.string` is absent
or empty are skipped (`if script.string:`). -/
def scripts_hit : List (Option String) → Option ScriptHit
  | [] => none
  | none :: rest => scripts_hit rest
  | some s :: rest =>
    if s = "" then scripts_hit rest
    else
      match script_hit s with
      | some h => some h
      | none => scripts_hit rest

/-- Method 6: `re.findall(r'https://gofile\.io/d/[A-Za-z0-9]+', page_text)`
taking the first match. -/
def findGofileUrl : List Char → Option String
  | [] => none
  | c :: t =>
    match stripPfx ("https://gofile.io/d/".toList) (c :: t) with
    | some r =>
      let run := r.takeWhile isAlnumAscii
      if run.isEmpty then findGofileUrl t
      else some ("https://gofile.io/d/" ++ String.mk run)
    | none => findGofileUrl t

/-- One match of Method 7's pattern `(https?:\\\/\\\/[^\s\\"]+)` at the head
of `s`: literal `http`, optional `s`, literal `:\/\/`, then a non-empty run
of characters that are not whitespace, backslash or double quote.  Returns
the matched characters and the remainder. -/
def escMatchAt (s : List Char) : Option (List Char × List Char) :=
  match stripPfx ("http".toList) s with
  | none => none
  | some s1 =>
    let attempt := fun (withS : Bool) (s2 : List Char) =>
      match stripPfx (":\\/\\/".toList) s2 with
      | some s3 =>
        let run := s3.takeWhile (fun c => !(pyIsSpace c) && (c != '\\') && (c != '"'))
        if run.isEmpty then none
        else some ((("http" ++ (if withS then "s" else "") ++ ":\\/\\/").toList ++ run),
                   s3.drop run.length)
      | none => none
    match s1 with
    | 's' :: s2 =>
      (match attempt true s2 with
       | some x => some x
       | none => attempt false s1)
    | _ => attempt false s1

/-- Method 7: scan for escaped URL literals (non-overlapping, as
`re.findall`), unescape each with `.replace('\\/', '/')`, and yield the
first whose unescaped form contains a destination domain.  The fuel is
always the length of the scanned list. -/
def findEscapedAux : Nat → List Char → Option String
  | 0, _ => none
  | _ + 1, [] => none
  | fuel + 1, c :: t =>
    match escMatchAt (c :: t) with
    | some (m, rest) =>
      let unescaped := pyReplace (String.mk m) "\\/" "/"
      if destination_domains.any (fun dom => strContains unescaped dom) then some unescaped
      else findEscapedAux fuel rest
    | none => findEscapedAux fuel t

def findEscapedDest (s : List Char) : Option String :=
  findEscapedAux s.length s

/-! ## The recursive resolver `extract_url` -/

/-- The fetch oracle: the behavior of `requests.get` (plus body parsing) at
each URL during one resolution attempt. -/
def Net : Type := String → FetchResult

/-- `extract_url(url, depth, max_depth)`: depth-bounded recursive
destination extraction.  The structure follows the source line by line:
depth ceiling, classifier base case, fetch (an exception returns the
current URL), redirect check, then Methods 1-7 in order, and the final
give-up `return url`. -/
def extract_url (net : Net) (url : String) (depth : Nat) (max_depth : Nat) : String :=
  if h : depth ≥ max_depth then url
  else if !(is_shortener url) then url
  else
    match net url with
    | FetchResult.exn => url
    | FetchResult.ok response =>
      if response.url ≠ url ∧ is_shortener response.url = false then response.url
      else
        match find_skip_link response.doc with
        | some destination =>
          let destination :=
            if !(pyStartsWith destination "http") then
              urlparse_scheme url ++ "://" ++ urlparse_netloc url ++ destination
            else destination
          extract_url net destination (depth + 1) max_depth
        | none =>
          match meta_refresh_target response.doc with
          | some destination => extract_url net destination (depth + 1) max_depth
          | none =>
            match find_destination_anchor response.doc with
            | some href => href
            | none =>
              match find_destination_iframe response.doc with
              | some src => src
              | none =>
                match scripts_hit response.doc.scripts with
                | some (ScriptHit.direct destination) => destination
                | some (ScriptHit.hop destination) =>
                  let destination :=
                    if pyStartsWith destination "/" then
                      urlparse_scheme url ++ "://" ++ urlparse_netloc url ++ destination
                    else destination
                  extract_url net destination (depth + 1) max_depth
                | none =>
                  match findGofileUrl response.text.toList with
                  | some destination => destination
                  | none =>
                    match findEscapedDest response.text.toList with
                    | some unescaped => extract_url net unescaped (depth + 1) max_depth
                    | none => url
termination_by max_depth - depth
decreasing_by all_goals omega

/-- The number of recursive hops `extract_url` performs: the same branch
structure, counting one per recursive call. -/
def extract_hops (net : Net) (url : String) (depth : Nat) (max_depth : Nat) : Nat :=
  if h : depth ≥ max_depth then 0
  else if !(is_shortener url) then 0
  else
    match net url with
    | FetchResult.exn => 0
    | FetchResult.ok response =>
      if response.url ≠ url ∧ is_shortener response.url = false then 0
      else
        match find_skip_link response.doc with
        | some destination =>
          let destination :=
            if !(pyStartsWith destination "http") then
              urlparse_scheme url ++ "://" ++ urlparse_netloc url ++ destination
            else destination
          extract_hops net destination (depth + 1) max_depth + 1
        | none =>
          match meta_refresh_target response.doc with
          | some destination => extract_hops net destination (depth + 1) max_depth + 1
          | none =>
            match find_destination_anchor response.doc with
            | some _ => 0
            | none =>
              match find_destination_iframe response.doc with
              | some _ => 0
              | none =>
                match scripts_hit response.doc.scripts with
                | some (ScriptHit.direct _) => 0
                | some (ScriptHit.hop destination) =>
                  let destination :=
                    if pyStartsWith destination "/" then
                      urlparse_scheme url ++ "://" ++ urlparse_netloc url ++ destination
                    else destination
                  extract_hops net destination (depth + 1) max_depth + 1
                | none =>
                  match findGofileUrl response.text.toList with
                  | some _ => 0
                  | none =>
                    match findEscapedDest response.text.toList with
                    | some unescaped => extract_hops net unescaped (depth + 1) max_depth + 1
                    | none => 0
termination_by max_depth - depth
decreasing_by all_goals omega

/-! ## The heuristic cascade as an ordered strategy list (specification
form, for comparison with the nested conditionals of the source) -/

/-- Outcome of one heuristic: a destination returned directly, or a URL to
recurse into at depth+1. -/
inductive HeurOutcome where
  | direct (dest : String)
  | hop (dest : String)
deriving Repr, DecidableEq

/-- Resolution of a possibly relative skip-link target against the current
URL's origin (`if not destination.startswith('http')`). -/
def absolutizeHttp (url dest : String) : String :=
  if !(pyStartsWith dest "http") then
    urlparse_scheme url ++ "://" ++ urlparse_netloc url ++ dest
  else dest

/-- Resolution of a `/`-relative script target against the current URL's
origin (`if destination.startswith('/')`). -/
def absolutizeSlash (url dest : String) : String :=
  if pyStartsWith dest "/" then
    urlparse_scheme url ++ "://" ++ urlparse_netloc url ++ dest
  else dest

/-- The seven HTML extraction heuristics as an ordered list of pure
functions of the current URL and the response, per the specification's
strategy-list design. -/
def heuristic_list : List (String → Response → Option HeurOutcome) :=
  [fun url r => (find_skip_link r.doc).map (fun d => HeurOutcome.hop (absolutizeHttp url d)),
   fun _ r => (meta_refresh_target r.doc).map HeurOutcome.hop,
   fun _ r => (find_destination_anchor r.doc).map HeurOutcome.direct,
   fun _ r => (find_destination_iframe r.doc).map HeurOutcome.direct,
   fun url r => (scripts_hit r.doc.scripts).map (fun h =>
     match h with
     | ScriptHit.direct d => HeurOutcome.direct d
     | ScriptHit.hop d => HeurOutcome.hop (absolutizeSlash url d)),
   fun _ r => (findGofileUrl r.text.toList).map HeurOutcome.direct,
   fun _ r => (findEscapedDest r.text.toList).map HeurOutcome.hop]

/-- First non-`none` result of a list of options. -/
def firstSome {α : Type} : List (Option α) → Option α
  | [] => none
  | some a :: _ => some a
  | none :: t => firstSome t

/-- The cascade: the heuristics are tried in list order and the first that
yields a candidate determines the step. -/
def cascade (url : String) (r : Response) : Option HeurOutcome :=
  firstSome (heuristic_list.map (fun h => h url r))

/-! ## API strategy and `get_destination_url` -/

/-- The JSON body of an expand-API response, with the field aliases the
source reads (`data.get(...)`; a missing field is `none`). -/
structure ApiJson where
  status : Option String
  destination : Option String
  destinationUrl : Option String
  longUrl : Option String
deriving Repr, DecidableEq

/-- Outcome of `requests.get` on an API endpoint: an exception, or a
response with its status code, its JSON parse (`none` when
`response.json()` raises) and its raw text. -/
inductive ApiResult where
  | exn
  | resp (status_code : Nat) (json : Option ApiJson) (text : String)
deriving Repr, DecidableEq

/-- Python's `a or b` on the optional strings read from JSON (`None` and
the empty string are falsy). -/
def pyOrStr (a b : Option String) : Option String :=
  match a with
  | some s => if s = "" then b else some s
  | none => b

/-- The two expand-endpoint variants tried by `get_destination_url`. -/
def api_endpoints (api_key short_url : String) : List String :=
  ["https://vplink.in/api?api=" ++ api_key ++ "&url=" ++ short_url,
   "https://vplink.in/api?api=" ++ api_key ++ "&url=vplink.in/" ++ lastSlashComponent short_url]

/-- One iteration of the endpoint loop: on HTTP 200, a JSON body with
status `success` and a truthy destination field (first of `destination`,
`destinationUrl`, `longUrl`) is returned; if the body is not JSON but is
non-empty and contains `https://`, its stripped text is returned; anything
else (including an exception) yields nothing and the loop continues. -/
def try_api_endpoint (api : String → ApiResult) (endpoint : String) : Option String :=
  match api endpoint with
  | ApiResult.exn => none
  | ApiResult.resp status_code json text =>
    if status_code = 200 then
      match json with
      | some data =>
        if data.status == some "success" then
          match pyOrStr data.destination (pyOrStr data.destinationUrl data.longUrl) with
          | some dest => if dest = "" then none else some dest
          | none => none
        else none
      | none =>
        if text ≠ "" ∧ strContains text "https://" = true then some (pyStrip text) else none
    else none

/-- The API strategy: the endpoint variants in order, stopping at the first
that yields a destination (lines 65-90 of the source). -/
def api_phase (api : String → ApiResult) (short_url api_key : String) : Option String :=
  firstSome ((api_endpoints api_key short_url).map (try_api_endpoint api))

/-- `get_destination_url(short_url, api_key)`: the API strategy first; on
failure, fall back to recursive HTML extraction starting at depth 0 with
`max_depth = 10`.  The result is `none` only through the outer exception
handler, which no modelled step reaches. -/
def get_destination_url (api : String → ApiResult) (net : Net)
    (short_url api_key : String) : Option String :=
  match api_phase api short_url api_key with
  | some dest => some dest
  | none => some (extract_url net short_url 0 10)

/-! ## Re-shortener `create_short_url` -/

/-- The JSON body of a shorten-API response. -/
structure CreateJson where
  status : Option String
  shortenedUrl : Option String
deriving Repr, DecidableEq

/-- Outcome of `requests.get` on the creation endpoint. -/
inductive CreateResult where
  | exn
  | resp (status_code : Nat) (json : Option CreateJson) (text : String)
deriving Repr, DecidableEq

/-- The creation endpoint URL
`https://vplink.in/api?api={api_key}&url={destination_url}`. -/
def shorten_api_url (api_key destination_url : String) : String :=
  "https://vplink.in/api?api=" ++ api_key ++ "&url=" ++ destination_url

/-- `create_short_url(destination_url, api_key)`: a single GET; on HTTP 200
with JSON status `success`, returns the `shortenedUrl` field (absent field
included, which Python returns as `None`); any other status, non-200
response, JSON parse error or transport error yields `None`. -/
def create_short_url (http : String → CreateResult)
    (destination_url api_key : String) : Option String :=
  match http (shorten_api_url api_key destination_url) with
  | CreateResult.exn => none
  | CreateResult.resp status_code json _text =>
    if status_code = 200 then
      match json with
      | none => none
      | some data =>
        if data.status == some "success" then data.shortenedUrl else none
    else none

/-! ## The channel-message handler -/

/-- `formatted_url`: the new short URL with scheme prefixes stripped,
`new_short_url.replace('https://', '').replace('http://', '')`. -/
def strip_scheme (s : String) : String :=
  pyReplace (pyReplace s "https://" "") "http://" ""

/-- One iteration of the per-URL loop of `handle_channel_message`: resolve,
skip on falsy result; re-shorten, skip on falsy result; otherwise replace
every occurrence of the original URL in the evolving text with the
scheme-stripped new short URL. -/
def process_url_step (resolve create : String → Option String)
    (acc short_url : String) : String :=
  match resolve short_url with
  | none => acc
  | some destination_url =>
    if destination_url = "" then acc
    else
      match create destination_url with
      | none => acc
      | some new_short_url =>
        if new_short_url = "" then acc
        else pyReplace acc short_url (strip_scheme new_short_url)

/-- The full per-URL loop over the extracted candidates. -/
def process_urls (resolve create : String → Option String)
    (urls : List String) (text : String) : String :=
  urls.foldl (process_url_step resolve create) text

/-- `handle_channel_message` with its collaborators abstracted: `none`
means no message is posted to the target channel; `some t` means `t` is
handed to the posting collaborator.  Messages from other channels and
messages without any candidate link are dropped. -/
def handler_core (resolve create : String → Option String)
    (chat_id source_id : Int) (text : String) : Option String :=
  if chat_id ≠ source_id then none
  else
    let vplink_urls := extract_vplink_urls text
    if vplink_urls = [] then none
    else some (process_urls resolve create vplink_urls text)

/-- `handle_channel_message` tied to the actual resolver and re-shortener. -/
def handle_channel_message (api : String → ApiResult) (net : Net)
    (http : String → CreateResult) (api1_key api2_key : String)
    (chat_id source_id : Int) (text : String) : Option String :=
  handler_core (fun u => get_destination_url api net u api1_key)
    (fun d => create_short_url http d api2_key) chat_id source_id text

/-! ## Concrete documents and oracles used to instantiate the theorems -/

/-- A page whose only content is a skip button pointing at `url` itself. -/
def skipDoc (url : String) : Doc :=
  { anchors := [{ id := some "skip_button", classes := [], text := some "skip", href := some url }],
    metaRefresh := none, iframeSrcs := [], scripts := [] }

/-- A network where every fetch lands on the requested URL and serves a
skip button back to that same URL: the cyclic shortener of the depth-bound
test. -/
def cycNet : Net := fun v => FetchResult.ok { url := v, text := "", doc := skipDoc v }

/-- A page with no anchors, no meta refresh, no iframes, no scripts and an
empty body: no heuristic can yield a candidate. -/
def emptyDoc : Doc :=
  { anchors := [], metaRefresh := none, iframeSrcs := [], scripts := [] }

/-- A network whose every fetch raises. -/
def exnNet : Net := fun _ => FetchResult.exn

/-- A network whose every fetch lands unchanged on an empty page. -/
def emptyNet : Net := fun v => FetchResult.ok { url := v, text := "", doc := emptyDoc }

/-- A crafted page containing both a skip-link and a direct-destination
anchor, for the heuristic-priority test. -/
def dualDoc : Doc :=
  { anchors :=
      [{ id := some "skip_button", classes := [], text := some "Get Link",
         href := some "https://bit.ly/next1" },
       { id := none, classes := [], text := some "download",
         href := some "https://gofile.io/d/abc12" }],
    metaRefresh := none, iframeSrcs := [], scripts := [] }

/-- The body text of the crafted dual page. -/
def dualBody : String :=
  "<a id=\"skip_button\" href=\"https://bit.ly/next1\">Get Link</a> <a href=\"https://gofile.io/d/abc12\">download</a>"

/-- A network serving the dual page at every URL, landing unchanged. -/
def dualNet : Net := fun v => FetchResult.ok { url := v, text := dualBody, doc := dualDoc }

/-- An API oracle answering every endpoint with a successful expansion. -/
def apiGood : String → ApiResult := fun _ =>
  ApiResult.resp 200
    (some { status := some "success", destination := some "https://gofile.io/d/xy123",
            destinationUrl := none, longUrl := none }) ""

/-- An API oracle where every endpoint raises. -/
def apiExn : String → ApiResult := fun _ => ApiResult.exn

/-- A creation oracle answering with a successful shortening. -/
def httpOk : String → CreateResult := fun _ =>
  CreateResult.resp 200 (some { status := some "success", shortenedUrl := some "https://vplink.in/NEW1" }) ""

/-! # Theorems -/

/-! ## Helper lemmas -/

theorem containsSub_eq_true_iff (hay needle : List Char) :
    containsSub hay needle = true ↔ needle <:+: hay := by
  induction hay with
  | nil =>
    simp [containsSub, List.isEmpty_iff]
  | cons c t ih =>
    simp only [containsSub, Bool.or_eq_true, List.isPrefixOf_iff_prefix, ih]
    constructor
    · rintro (h | h)
      · exact h.isInfix
      · exact h.trans (List.suffix_cons c t).isInfix
    · intro h
      rcases (List.infix_cons_iff).mp h with h | h
      · exact Or.inl h
      · exact Or.inr h

theorem strContains_trans (a b c : String) :
    strContains a b = true → strContains b c = true → strContains a c = true := by
  intro hab hbc
  unfold strContains at hab hbc ⊢
  rw [containsSub_eq_true_iff] at hab hbc ⊢
  exact hbc.trans hab

theorem pyReplaceAux_of_not_contains (a b : List Char) :
    ∀ (fuel : Nat) (s : List Char), s.length ≤ fuel → containsSub s a = false →
      pyReplaceAux a b fuel s = s := by
  intro fuel
  induction fuel with
  | zero => intro s _ _; cases s with
    | nil => rfl
    | cons c t => simp at *
  | succ n ih =>
    intro s hlen hocc
    cases s with
    | nil => rfl
    | cons c t =>
      simp only [containsSub, Bool.or_eq_false_iff] at hocc
      rw [pyReplaceAux, if_neg]
      · rw [ih t (by simpa using Nat.le_of_succ_le_succ hlen) hocc.2]
      · rintro ⟨-, hpre⟩
        rw [hocc.1] at hpre
        exact absurd hpre (by simp)

theorem pyReplace_of_not_contains (t a b : String) :
    strContains t a = false → pyReplace t a b = t := by
  intro h
  unfold pyReplace
  rw [if_neg, pyReplaceAux_of_not_contains a.toList b.toList t.toList.length t.toList le_rfl h]
  · cases t; rfl
  · intro ha
    unfold strContains containsSub at h
    cases ht : t.toList with
    | nil => rw [ht, ha] at h; simp at h
    | cons c tt => rw [ht, ha] at h; simp at h

theorem schemeSplit_suffix (l s r : List Char) :
    schemeSplit l = some (s, r) → r <:+ l := by
  induction l generalizing s with
  | nil => intro h; simp [schemeSplit] at h
  | cons c t ih =>
    intro h
    rw [schemeSplit] at h
    split at h
    · simp only [Option.some.injEq, Prod.mk.injEq] at h
      rw [← h.2]
      exact List.drop_suffix 3 (c :: t)
    · revert h
      cases hs : schemeSplit t with
      | none => intro h; simp at h
      | some p =>
        intro h
        simp only [Option.some.injEq] at h
        obtain ⟨a0, b0⟩ := p
        cases h
        exact (ih a0 hs).trans (List.suffix_cons c t)

theorem netloc_part_of_url (url : String) :
    (urlparse_netloc url).toList <:+: url.toList := by
  unfold urlparse_netloc
  cases hs : schemeSplit url.toList with
  | none => exact List.nil_infix
  | some p =>
    obtain ⟨sch, r⟩ := p
    exact (List.takeWhile_prefix _).isInfix.trans
      (schemeSplit_suffix url.toList sch r hs).isInfix

/-! ## C9 -/

/-- C9: the resolver is total as a value-level function: for every API and
network behavior, `get_destination_url` returns `some` URL — heuristic
exhaustion and the depth ceiling both produce a URL, never the failure
value, which only the outer exception handler can produce. -/
theorem resolver_total (api : String → ApiResult) (net : Net) (short_url api_key : String) :
    (get_destination_url api net short_url api_key).isSome = true := by
  unfold get_destination_url
  cases api_phase api short_url api_key <;> simp

/-! ## C3 -/

/-- C3: API-first precedence — when any tried endpoint variant yields a
destination, `get_destination_url` returns exactly that destination, and
its result does not depend on the fetch oracle: the HTML-heuristic path is
never consulted. -/
theorem api_first_precedence (api : String → ApiResult) (net net2 : Net)
    (short_url api_key dest : String)
    (h : api_phase api short_url api_key = some dest) :
    get_destination_url api net short_url api_key = some dest ∧
    get_destination_url api net short_url api_key = get_destination_url api net2 short_url api_key := by
  unfold get_destination_url
  rw [h]
  exact ⟨rfl, rfl⟩

/-- Witness for C3 at a concrete API oracle and two different networks. -/
theorem api_first_precedence_witness :
    get_destination_url apiGood exnNet "https://vplink.in/A8ne5" "k1" = some "https://gofile.io/d/xy123" ∧
    get_destination_url apiGood exnNet "https://vplink.in/A8ne5" "k1" =
      get_destination_url apiGood cycNet "https://vplink.in/A8ne5" "k1" :=
  api_first_precedence apiGood exnNet cycNet "https://vplink.in/A8ne5" "k1"
    "https://gofile.io/d/xy123" (by rfl)

/-! ## C6 -/

/-- C6: `create_short_url` returns a new short link exactly when the
creation endpoint answers HTTP 200 with a JSON body whose status is
`success` and whose `shortenedUrl` field is present; any other status,
non-200 response, JSON parse failure or transport error yields the failure
value `none` rather than an exception. -/
theorem create_short_url_success_iff (http : String → CreateResult)
    (destination_url api_key s : String) :
    create_short_url http destination_url api_key = some s ↔
    ∃ (data : CreateJson) (text : String),
      http (shorten_api_url api_key destination_url) = CreateResult.resp 200 (some data) text ∧
      data.status = some "success" ∧ data.shortenedUrl = some s := by
  constructor
  · intro h
    unfold create_short_url at h
    cases hh : http (shorten_api_url api_key destination_url) with
    | exn => rw [hh] at h; exact absurd h (by simp)
    | resp status_code json text =>
      rw [hh] at h
      dsimp only at h
      by_cases hc : status_code = 200
      · subst hc
        rw [if_pos rfl] at h
        cases json with
        | none => exact absurd h (by simp)
        | some data =>
          dsimp only at h
          by_cases hs : (data.status == some "success") = true
          · rw [if_pos hs] at h
            exact ⟨data, text, rfl, by simpa using hs, h⟩
          · rw [if_neg hs] at h
            exact absurd h (by simp)
      · rw [if_neg hc] at h
        exact absurd h (by simp)
  · rintro ⟨data, text, hh, hs, hu⟩
    unfold create_short_url
    rw [hh]
    dsimp only
    rw [if_pos rfl, if_pos (by simp [hs]), hu]

/-- Witness for C6 at a concrete creation oracle. -/
theorem create_short_url_success_iff_witness :
    create_short_url httpOk "https://gofile.io/d/xy123" "k2" = some "https://vplink.in/NEW1" :=
  (create_short_url_success_iff httpOk "https://gofile.io/d/xy123" "k2"
    "https://vplink.in/NEW1").mpr
    ⟨{ status := some "success", shortenedUrl := some "https://vplink.in/NEW1" }, "",
      rfl, rfl, rfl⟩

/-! ## C10 -/

/-- C10: a message from the source channel whose text contains no candidate
vplink URL is dropped — the handler returns without posting anything. -/
theorem no_candidates_no_post (api : String → ApiResult) (net : Net)
    (http : String → CreateResult) (api1_key api2_key : String)
    (chat src : Int) (text : String)
    (hchat : chat = src) (hurls : extract_vplink_urls text = []) :
    handle_channel_message api net http api1_key api2_key chat src text = none := by
  unfold handle_channel_message handler_core
  rw [hurls]
  simp

/-- Witness for C10 at a concrete link-free message. -/
theorem no_candidates_no_post_witness :
    handle_channel_message apiGood emptyNet httpOk "k1" "k2" 7 7 "hello world, no links here" = none :=
  no_candidates_no_post apiGood emptyNet httpOk "k1" "k2" 7 7
    "hello world, no links here" rfl (by decide)

/-! ## C8 -/

/-- C8: failure locality — if resolving a candidate fails (falsy
destination) or re-shortening its destination fails (falsy new link), that
candidate's loop iteration leaves the evolving text unchanged, so the
final text equals the text produced with that candidate removed from the
list: the other candidates are still processed and, since the handler
still reaches the posting step with any non-empty candidate list, the
message is still posted. -/
theorem failure_locality (resolve create : String → Option String)
    (t : String) (us1 us2 : List String) (u : String)
    (hfail : resolve u = none ∨ resolve u = some "" ∨
      ∃ d, resolve u = some d ∧ d ≠ "" ∧ (create d = none ∨ create d = some "")) :
    process_urls resolve create (us1 ++ u :: us2) t = process_urls resolve create (us1 ++ us2) t ∧
    ∀ (chat : Int) (text : String), extract_vplink_urls text ≠ [] →
      handler_core resolve create chat chat text =
        some (process_urls resolve create (extract_vplink_urls text) text) := by
  have hstep : ∀ acc, process_url_step resolve create acc u = acc := by
    intro acc
    rcases hfail with h | h | ⟨d, hd, hne, hc⟩
    · simp [process_url_step, h]
    · simp [process_url_step, h]
    · rcases hc with hc | hc <;> simp [process_url_step, hd, hne, hc]
  constructor
  · unfold process_urls
    rw [List.foldl_append, List.foldl_append, List.foldl_cons, hstep]
  · intro chat text hne
    unfold handler_core
    rw [if_neg (by simp), if_neg hne]

/-- Witness for C8: a failing middle candidate between two others, and the
posting of a message that does contain a candidate. -/
theorem failure_locality_witness :
    (process_urls (fun _ => none) (fun _ => none)
        (["https://vplink.in/a1"] ++ "https://vplink.in/bad" :: ["https://vplink.in/b2"])
        "some text" =
      process_urls (fun _ => none) (fun _ => none)
        (["https://vplink.in/a1"] ++ ["https://vplink.in/b2"]) "some text") ∧
    handler_core (fun _ => none) (fun _ => none) 7 7 "see https://vplink.in/Ab1" =
      some (process_urls (fun _ => none) (fun _ => none)
        (extract_vplink_urls "see https://vplink.in/Ab1") "see https://vplink.in/Ab1") := by
  have h := failure_locality (fun _ => none) (fun _ => none) "some text"
    ["https://vplink.in/a1"] ["https://vplink.in/b2"] "https://vplink.in/bad"
    (Or.inl rfl)
  exact ⟨h.1, h.2 7 "see https://vplink.in/Ab1" (by decide)⟩

/-! ## C1 -/

/-- C1 counterexample: `https://example.com/bit.ly/abc` has host
`example.com`, which matches and contains no configured shortener domain,
yet the classifier says it is a shortener, because `bit.ly` occurs in the
URL's path — refuting both the claimed "if and only if the host matches or
contains a configured domain" and the claimed "not a shortener regardless
of path". -/
theorem classifier_not_host_based :
    is_shortener "https://example.com/bit.ly/abc" = true ∧
    urlparse_netloc "https://example.com/bit.ly/abc" = "example.com" ∧
    spec_host_is_shortener "https://example.com/bit.ly/abc" = false := by
  decide

/-- C1 amended: the classifier tests substring containment of each
configured domain against the entire URL string.  Every URL whose host
contains a configured domain is classified as a shortener (the host is a
substring of the URL), but the converse direction of the claim fails: a
URL whose host matches no configured domain is still classified as a
shortener whenever a configured domain occurs elsewhere in the URL, e.g.
in its path. -/
theorem host_shortener_implies_shortener (url : String)
    (h : spec_host_is_shortener url = true) : is_shortener url = true := by
  unfold spec_host_is_shortener at h
  unfold is_shortener
  rw [List.any_eq_true] at h ⊢
  obtain ⟨dom, hmem, hdom⟩ := h
  refine ⟨dom, hmem, ?_⟩
  have hnet : strContains url (urlparse_netloc url) = true := by
    unfold strContains
    rw [containsSub_eq_true_iff]
    exact netloc_part_of_url url
  exact strContains_trans url (urlparse_netloc url) dom hnet hdom

/-- Witness for the amended C1 at a URL whose host is a configured domain. -/
theorem host_shortener_implies_shortener_witness :
    is_shortener "https://vplink.in/abc" = true :=
  host_shortener_implies_shortener "https://vplink.in/abc" (by decide)

/-! ## C7 -/

/-- C7 counterexample: the message text
`https://https://vplink.in/A1 https://vplink.in/A1` contains the candidate
`https://vplink.in/A1` twice; with the new short link
`https://vplink.in/A1` (scheme-stripped replacement `vplink.in/A1`), one
rewriting pass replaces both candidate occurrences, but the text preceding
the first occurrence combines with the inserted replacement to recreate
the original substring, so an occurrence of the original remains and
re-running the substitution with the same pair is not a no-op. -/
theorem rewrite_not_idempotent :
    extract_vplink_urls "https://https://vplink.in/A1 https://vplink.in/A1" =
      ["https://vplink.in/A1", "https://vplink.in/A1"] ∧
    strip_scheme "https://vplink.in/A1" = "vplink.in/A1" ∧
    pyReplace "https://https://vplink.in/A1 https://vplink.in/A1"
        "https://vplink.in/A1" "vplink.in/A1" =
      "https://vplink.in/A1 vplink.in/A1" ∧
    strContains "https://vplink.in/A1 vplink.in/A1" "https://vplink.in/A1" = true ∧
    pyReplace (pyReplace "https://https://vplink.in/A1 https://vplink.in/A1"
          "https://vplink.in/A1" "vplink.in/A1")
        "https://vplink.in/A1" "vplink.in/A1" ≠
      pyReplace "https://https://vplink.in/A1 https://vplink.in/A1"
        "https://vplink.in/A1" "vplink.in/A1" := by
  refine ⟨by decide, by decide, by decide, by decide, ?_⟩
  decide

/-- C7 amended: rewriting replaces every occurrence of the original
substring against the evolving text (both duplicate occurrences receive
the same replacement), and re-running the substitution with the same
original-to-replacement pair is a no-op provided the rewritten text
contains no occurrence of the original substring; that proviso can fail
when surrounding text combines with an inserted replacement to recreate
the original, as in the counterexample. -/
theorem rewrite_idempotent_amended :
    (∀ (t a b : String), strContains (pyReplace t a b) a = false →
      pyReplace (pyReplace t a b) a b = pyReplace t a b) ∧
    pyReplace "https://vplink.in/A1 and https://vplink.in/A1"
        "https://vplink.in/A1" "vplink.in/NEW1" =
      "vplink.in/NEW1 and vplink.in/NEW1" := by
  constructor
  · intro t a b h
    exact pyReplace_of_not_contains _ a b h
  · decide

/-- Witness for the amended C7: a duplicate-free-of-recreations rewrite is
idempotent. -/
theorem rewrite_idempotent_amended_witness :
    pyReplace (pyReplace "x https://vplink.in/A1 y" "https://vplink.in/A1" "vplink.in/NEW1")
        "https://vplink.in/A1" "vplink.in/NEW1" =
      pyReplace "x https://vplink.in/A1 y" "https://vplink.in/A1" "vplink.in/NEW1" :=
  rewrite_idempotent_amended.1 "x https://vplink.in/A1 y" "https://vplink.in/A1"
    "vplink.in/NEW1" (by decide)

/-! ## C5 -/

/-- C5: soft failure as a value — at a resolution step on a shortener URL
below the depth ceiling, a network/parse exception, and likewise a
response in which no heuristic yields a candidate (and no redirect escape
fires), make the step return the current URL unchanged rather than raise
or produce a failure value. -/
theorem soft_failure_step (net : Net) (url : String) (d m : Nat) (r : Response)
    (hdm : d < m) (hs : is_shortener url = true) :
    (net url = FetchResult.exn → extract_url net url d m = url) ∧
    (net url = FetchResult.ok r → (r.url = url ∨ is_shortener r.url = true) →
      find_skip_link r.doc = none → meta_refresh_target r.doc = none →
      find_destination_anchor r.doc = none → find_destination_iframe r.doc = none →
      scripts_hit r.doc.scripts = none → findGofileUrl r.text.toList = none →
      findEscapedDest r.text.toList = none →
      extract_url net url d m = url) := by
  constructor
  · intro hexn
    unfold extract_url
    rw [dif_neg (by omega), if_neg (by simp [hs]), hexn]
  · intro hok hred h1 h2 h3 h4 h5 h6 h7
    unfold extract_url
    rw [dif_neg (by omega), if_neg (by simp [hs]), hok]
    dsimp only
    rw [if_neg (by
      rintro ⟨hne, hbs⟩
      rcases hred with hu | hu
      · exact hne hu
      · rw [hu] at hbs; exact absurd hbs (by simp))]
    rw [h1, h2, h3, h4, h5, h6, h7]

/-- Witness for C5: an always-raising network, and a network that lands
unchanged on a page where no heuristic finds anything. -/
theorem soft_failure_step_witness :
    extract_url exnNet "https://vplink.in/x9" 0 10 = "https://vplink.in/x9" ∧
    extract_url emptyNet "https://vplink.in/x9" 0 10 = "https://vplink.in/x9" := by
  constructor
  · exact (soft_failure_step exnNet "https://vplink.in/x9" 0 10
      { url := "https://vplink.in/x9", text := "", doc := emptyDoc }
      (by omega) (by decide)).1 rfl
  · exact (soft_failure_step emptyNet "https://vplink.in/x9" 0 10
      { url := "https://vplink.in/x9", text := "", doc := emptyDoc }
      (by omega) (by decide)).2 rfl (Or.inl rfl) rfl rfl rfl rfl rfl rfl rfl

/-! ## C2 -/

theorem extract_hops_le_aux (net : Net) :
    ∀ (fuel : Nat) (url : String) (d m : Nat), m - d ≤ fuel →
      extract_hops net url d m ≤ m - d := by
  intro fuel
  induction fuel with
  | zero =>
    intro url d m hf
    unfold extract_hops
    rw [dif_pos (by omega)]
    exact Nat.zero_le _
  | succ n ih =>
    intro url d m hf
    by_cases hd : d ≥ m
    · unfold extract_hops
      rw [dif_pos hd]
      exact Nat.zero_le _
    · unfold extract_hops
      rw [dif_neg hd]
      have hrec : ∀ X : String, extract_hops net X (d + 1) m + 1 ≤ m - d := by
        intro X
        have := ih X (d + 1) m (by omega)
        omega
      repeat' split
      all_goals first
        | exact Nat.zero_le _
        | exact hrec _

theorem extract_url_selfloop_aux (net : Net) :
    ∀ (fuel : Nat) (url : String) (d m : Nat), m - d ≤ fuel →
      net url = FetchResult.ok { url := url, text := "", doc := skipDoc url } →
      pyStartsWith url "http" = true → extract_url net url d m = url := by
  intro fuel
  induction fuel with
  | zero =>
    intro url d m hf hok hsw
    unfold extract_url
    rw [dif_pos (by omega)]
  | succ n ih =>
    intro url d m hf hok hsw
    by_cases hd : d ≥ m
    · unfold extract_url
      rw [dif_pos hd]
    · have hne : url ≠ "" := by
        intro h
        rw [h] at hsw
        exact absurd hsw (by decide)
      unfold extract_url
      rw [dif_neg hd]
      by_cases hs : is_shortener url = true
      · rw [if_neg (by simp [hs]), hok]
        dsimp only
        rw [if_neg (by rintro ⟨hne2, _⟩; exact hne2 rfl)]
        have hskip : find_skip_link (skipDoc url) = some url := by
          unfold find_skip_link skipDoc
          simp [List.find?, hne]
        rw [hskip]
        dsimp only
        rw [hsw]
        exact ih url (d + 1) m (by omega) hok hsw
      · have hs' : is_shortener url = false := by simpa using hs
        rw [if_pos (by simp [hs'])]

/-- C2: depth-bounded termination — (i) from depth `d` the resolver
performs at most `max_depth - d` recursive hops (so at most 10 from depth
0 with the source's ceiling), for every network behavior; (ii) once the
depth counter reaches `max_depth`, resolution returns the last-seen URL
rather than raising; (iii) even a network that always lands back on the
same shortener URL and offers a skip link to that same URL (a perfect
cycle) terminates and yields that URL. -/
theorem depth_bound :
    (∀ (net : Net) (url : String) (d m : Nat), extract_hops net url d m ≤ m - d) ∧
    (∀ (net : Net) (url : String) (d m : Nat), m ≤ d → extract_url net url d m = url) ∧
    (∀ (net : Net) (url : String) (d m : Nat),
      net url = FetchResult.ok { url := url, text := "", doc := skipDoc url } →
      pyStartsWith url "http" = true → extract_url net url d m = url) := by
  refine ⟨?_, ?_, ?_⟩
  · intro net url d m
    exact extract_hops_le_aux net (m - d) url d m le_rfl
  · intro net url d m hmd
    unfold extract_url
    rw [dif_pos (by omega)]
  · intro net url d m hok hsw
    exact extract_url_selfloop_aux net (m - d) url d m le_rfl hok hsw

/-- Witness for C2 on the concrete cyclic network at depth 0 with the
source's ceiling of 10, and a call that starts past the ceiling. -/
theorem depth_bound_witness :
    extract_hops cycNet "https://vplink.in/loop" 0 10 ≤ 10 ∧
    extract_url cycNet "https://vplink.in/loop" 12 10 = "https://vplink.in/loop" ∧
    extract_url cycNet "https://vplink.in/loop" 0 10 = "https://vplink.in/loop" :=
  ⟨depth_bound.1 cycNet "https://vplink.in/loop" 0 10,
   depth_bound.2.1 cycNet "https://vplink.in/loop" 12 10 (by omega),
   depth_bound.2.2 cycNet "https://vplink.in/loop" 0 10 rfl (by decide)⟩

/-! ## C4 -/

theorem cascade_eq (url : String) (r : Response) :
    cascade url r =
      (match find_skip_link r.doc with
       | some d0 => some (HeurOutcome.hop (absolutizeHttp url d0))
       | none =>
         match meta_refresh_target r.doc with
         | some d0 => some (HeurOutcome.hop d0)
         | none =>
           match find_destination_anchor r.doc with
           | some d0 => some (HeurOutcome.direct d0)
           | none =>
             match find_destination_iframe r.doc with
             | some d0 => some (HeurOutcome.direct d0)
             | none =>
               match scripts_hit r.doc.scripts with
               | some (ScriptHit.direct d0) => some (HeurOutcome.direct d0)
               | some (ScriptHit.hop d0) => some (HeurOutcome.hop (absolutizeSlash url d0))
               | none =>
                 match findGofileUrl r.text.toList with
                 | some d0 => some (HeurOutcome.direct d0)
                 | none =>
                   match findEscapedDest r.text.toList with
                   | some d0 => some (HeurOutcome.hop d0)
                   | none => none) := by
  unfold cascade heuristic_list
  dsimp only [List.map]
  cases h1 : find_skip_link r.doc with
  | some d0 => simp [firstSome]
  | none =>
    cases h2 : meta_refresh_target r.doc with
    | some d0 => simp [firstSome]
    | none =>
      cases h3 : find_destination_anchor r.doc with
      | some d0 => simp [firstSome]
      | none =>
        cases h4 : find_destination_iframe r.doc with
        | some d0 => simp [firstSome]
        | none =>
          cases h5 : scripts_hit r.doc.scripts with
          | some sh => cases sh <;> simp [firstSome]
          | none =>
            cases h6 : findGofileUrl r.text.toList with
            | some d0 => simp [firstSome]
            | none =>
              cases h7 : findEscapedDest r.text.toList with
              | some d0 => simp [firstSome]
              | none => simp [firstSome]

/-- C4: heuristic priority — at a resolution step on a shortener URL below
the ceiling whose fetch lands without a redirect escape, the step's result
is exactly the result of trying the seven heuristics in their strict
priority order (skip-link, meta-refresh, destination anchor, iframe,
script, full-body literal scan, escaped-URL scan) and acting on the first
candidate; and whenever the skip-link heuristic yields a target, the
cascade's answer is that target — in particular, on a page containing both
a skip-link and a direct-destination anchor, the skip-link wins. -/
theorem heuristic_priority :
    (∀ (net : Net) (url : String) (d m : Nat) (r : Response),
      d < m → is_shortener url = true → net url = FetchResult.ok r →
      (r.url = url ∨ is_shortener r.url = true) →
      extract_url net url d m =
        (match cascade url r with
         | some (HeurOutcome.direct v) => v
         | some (HeurOutcome.hop v) => extract_url net v (d + 1) m
         | none => url)) ∧
    (∀ (url : String) (r : Response) (dest : String),
      find_skip_link r.doc = some dest →
      cascade url r = some (HeurOutcome.hop (absolutizeHttp url dest))) := by
  constructor
  · intro net url d m r hdm hs hok hred
    rw [cascade_eq]
    have hd : ¬ (d ≥ m) := by omega
    have hb : ¬ ((!is_shortener url) = true) := by simp [hs]
    have hc : ¬ (r.url ≠ url ∧ is_shortener r.url = false) := by
      rintro ⟨hne, hbs⟩
      rcases hred with hu | hu
      · exact hne hu
      · rw [hu] at hbs; exact absurd hbs (by simp)
    conv_lhs => rw [extract_url]
    rw [dif_neg hd, if_neg hb, hok]
    dsimp only
    rw [if_neg hc]
    cases h1 : find_skip_link r.doc with
    | some d0 => rfl
    | none =>
      cases h2 : meta_refresh_target r.doc with
      | some d0 => rfl
      | none =>
        cases h3 : find_destination_anchor r.doc with
        | some d0 => rfl
        | none =>
          cases h4 : find_destination_iframe r.doc with
          | some d0 => rfl
          | none =>
            cases h5 : scripts_hit r.doc.scripts with
            | some sh => cases sh <;> rfl
            | none =>
              cases h6 : findGofileUrl r.text.toList with
              | some d0 => rfl
              | none =>
                cases h7 : findEscapedDest r.text.toList with
                | some d0 => rfl
                | none => rfl
  · intro url r dest hskip
    rw [cascade_eq, hskip]

/-- Witness for C4 on the crafted dual page (skip-link and destination
anchor both present): the step recurses into the skip-link target. -/
theorem heuristic_priority_witness :
    extract_url dualNet "https://vplink.in/q1" 0 10 =
      extract_url dualNet "https://bit.ly/next1" 1 10 ∧
    find_skip_link dualDoc = some "https://bit.ly/next1" ∧
    find_destination_anchor dualDoc = some "https://gofile.io/d/abc12" := by
  have h := heuristic_priority.1 dualNet "https://vplink.in/q1" 0 10
    { url := "https://vplink.in/q1", text := dualBody, doc := dualDoc }
    (by omega) (by decide) rfl (Or.inl rfl)
  have h2 := heuristic_priority.2 "https://vplink.in/q1"
    { url := "https://vplink.in/q1", text := dualBody, doc := dualDoc }
    "https://bit.ly/next1" (by rfl)
  refine ⟨?_, by rfl, by rfl⟩
  rw [h, h2]
  rfl
